import Mathlib

/-!
Shallow embedding of the tRPC middleware core of the quizi backend
(`src/server/api/trpc.ts`).

Cookies are modelled as an association list from cookie name to value
(`cookies().get` is first-match lookup, `cookies().delete` removes every
cookie of that name).  The relational store holds the two tables the core
queries (`Quizes`, `Entries`); a drizzle
`select().from(T).where(eq(T.id, v))` followed by indexing `[0]` is the
first row whose id equals `v`, or absent.

Each procedure is embedded as a pure run function that receives the cookie
jar, the request context and the terminal handler, and returns the
outcome (`Except TRPCError α`), the cookie jar after the call, the store
after the call, and a trace of the observable effects performed
(cookie reads and deletions, store lookups, verifier invocations, and the
terminal handler firing).  The trace makes "the verifier is not invoked"
and "the entry cookie is never read" directly statable.
-/

namespace Quizi

/-- The inbound request handle; only its identity matters to the core. -/
structure NextRequest where
  handle : Nat
deriving DecidableEq, Repr

/-- A row of the `Quizes` table (fields from `CreateContextOptions.quiz`). -/
structure Quiz where
  id : String
  name : String
deriving DecidableEq, Repr

/-- A row of the `Entries` table (fields from `CreateContextOptions.entry`). -/
structure Entry where
  id : String
  name : String
  quizID : String
  lastname : String
  «class» : String
  score : Int
deriving DecidableEq, Repr

/-- The relational store: the two tables the middleware core queries. -/
structure Store where
  quizes : List Quiz
  entries : List Entry
deriving DecidableEq, Repr

/-- The cookie jar: an association list from cookie name to value. -/
abbrev Cookies := List (String × String)

/-- `cookies().get(name)`: the first cookie with that name, if any. -/
def cookiesGet (cs : Cookies) (name : String) : Option String :=
  (cs.find? (fun c => c.1 == name)).map (fun c => c.2)

/-- `cookies().delete(name)`: remove every cookie with that name. -/
def cookiesDelete (cs : Cookies) (name : String) : Cookies :=
  cs.filter (fun c => c.1 != name)

/-- The per-request context threaded through the middleware chain. -/
structure Ctx where
  req : NextRequest
  db : Store
  entry : Option Entry
  quiz : Option Quiz
deriving DecidableEq, Repr

/-- Argument of `createInnerTRPCContext`; `entry` and `quiz` are optional. -/
structure CreateContextOptions where
  req : NextRequest
  entry : Option Entry := none
  quiz : Option Quiz := none

/-- `createInnerTRPCContext`: builds the context from the options and the
shared database reference. -/
def createInnerTRPCContext (db : Store) (opts : CreateContextOptions) : Ctx :=
  { req := opts.req, db := db, entry := opts.entry, quiz := opts.quiz }

/-- `createTRPCContext`: the context builder used for every request; it
passes only the request handle down, leaving `entry` and `quiz` unset. -/
def createTRPCContext (db : Store) (req : NextRequest) : Ctx :=
  createInnerTRPCContext db { req := req }

/-- The two TRPC error codes this core raises. -/
inductive TRPCErrorCode where
  | UNAUTHORIZED
  | BAD_REQUEST
deriving DecidableEq, Repr

/-- A `TRPCError`: code plus message. -/
structure TRPCError where
  code : TRPCErrorCode
  message : String
deriving DecidableEq, Repr

/-- Observable effects of a middleware chain execution. -/
inductive Event where
  | cookieRead (name : String) (value : Option String)
  | cookieDelete (name : String)
  | dbSelectQuiz (id : String)
  | dbSelectEntry (id : String)
  | verifyCall (token : String) (ok : Bool)
  | handlerRun
deriving DecidableEq, Repr

/-- Result of running a procedure: the outcome, the cookie jar and store
after the call, and the trace of effects in execution order. -/
structure RunResult (α : Type) where
  result : Except TRPCError α
  cookies : Cookies
  store : Store
  trace : List Event
deriving Repr

/-- `(await db.select().from(Quizes).where(eq(Quizes.id, v)))[0]`. -/
def selectQuizById (s : Store) (v : String) : Option Quiz :=
  (s.quizes.filter (fun q => q.id == v)).head?

/-- `(await db.select().from(Entries).where(eq(Entries.id, v)))[0]`. -/
def selectEntryById (s : Store) (v : String) : Option Entry :=
  (s.entries.filter (fun e => e.id == v)).head?

/-- The terminal handler invocation at the end of a chain. -/
def runHandler {α : Type} (cs : Cookies) (ctx : Ctx) (handler : Ctx → α) :
    RunResult α :=
  { result := .ok (handler ctx), cookies := cs, store := ctx.db,
    trace := [.handlerRun] }

/-- The `privateProcedure` middleware (trpc.ts lines 120–127): read the
`Authorization` cookie; absent ⇒ UNAUTHORIZED "Authorization missing";
verified ⇒ continue unchanged; not verified ⇒ delete the cookie and fail
UNAUTHORIZED "Authorization incorrect".  `verify` is the external
`VerifyJWT`. -/
def runPrivateProcedure {α : Type} (verify : String → Bool) (cs : Cookies)
    (ctx : Ctx) (handler : Ctx → α) : RunResult α :=
  match cookiesGet cs "Authorization" with
  | none =>
      { result := .error ⟨.UNAUTHORIZED, "Authorization missing"⟩,
        cookies := cs, store := ctx.db,
        trace := [.cookieRead "Authorization" none] }
  | some v =>
      if verify v then
        let r := runHandler cs ctx handler
        { r with trace := .cookieRead "Authorization" (some v) ::
            .verifyCall v true :: r.trace }
      else
        { result := .error ⟨.UNAUTHORIZED, "Authorization incorrect"⟩,
          cookies := cookiesDelete cs "Authorization", store := ctx.db,
          trace := [.cookieRead "Authorization" (some v),
            .verifyCall v false, .cookieDelete "Authorization"] }

/-- The `quizStartProcedure` middleware step (trpc.ts lines 128–138) in
continuation style: read the `quizID` cookie; absent ⇒ BAD_REQUEST
"Quiz missing"; row found ⇒ attach it to the context and continue; not
found ⇒ BAD_REQUEST "Quiz incorrect". -/
def quizStartStep {α : Type} (cs : Cookies) (ctx : Ctx)
    (next : Ctx → RunResult α) : RunResult α :=
  match cookiesGet cs "quizID" with
  | none =>
      { result := .error ⟨.BAD_REQUEST, "Quiz missing"⟩,
        cookies := cs, store := ctx.db,
        trace := [.cookieRead "quizID" none] }
  | some v =>
      match selectQuizById ctx.db v with
      | some quiz =>
          let r := next { ctx with quiz := some quiz }
          { r with trace := .cookieRead "quizID" (some v) ::
              .dbSelectQuiz v :: r.trace }
      | none =>
          { result := .error ⟨.BAD_REQUEST, "Quiz incorrect"⟩,
            cookies := cs, store := ctx.db,
            trace := [.cookieRead "quizID" (some v), .dbSelectQuiz v] }

/-- The extra middleware step of `quizProcedure` (trpc.ts lines 139–149):
read the `entryID` cookie; absent ⇒ BAD_REQUEST "Entry missing"; row
found ⇒ attach it to the context and continue; not found ⇒ BAD_REQUEST
"Quiz incorrect" (the message is reused verbatim in the source). -/
def entryStep {α : Type} (cs : Cookies) (ctx : Ctx)
    (next : Ctx → RunResult α) : RunResult α :=
  match cookiesGet cs "entryID" with
  | none =>
      { result := .error ⟨.BAD_REQUEST, "Entry missing"⟩,
        cookies := cs, store := ctx.db,
        trace := [.cookieRead "entryID" none] }
  | some v =>
      match selectEntryById ctx.db v with
      | some entry =>
          let r := next { ctx with entry := some entry }
          { r with trace := .cookieRead "entryID" (some v) ::
              .dbSelectEntry v :: r.trace }
      | none =>
          { result := .error ⟨.BAD_REQUEST, "Quiz incorrect"⟩,
            cookies := cs, store := ctx.db,
            trace := [.cookieRead "entryID" (some v), .dbSelectEntry v] }

/-- Run `quizStartProcedure` to completion: its one step, then the handler. -/
def runQuizStartProcedure {α : Type} (cs : Cookies) (ctx : Ctx)
    (handler : Ctx → α) : RunResult α :=
  quizStartStep cs ctx (fun c => runHandler cs c handler)

/-- Run `quizProcedure` to completion: the `quizStart` step, then the
entry step, then the handler — `quizProcedure = quizStartProcedure.use(…)`. -/
def runQuizProcedure {α : Type} (cs : Cookies) (ctx : Ctx)
    (handler : Ctx → α) : RunResult α :=
  quizStartStep cs ctx (fun c =>
    entryStep cs c (fun c2 => runHandler cs c2 handler))

/-! ### Helper lemmas -/

/-- With pairwise-distinct keys, the first row whose key matches a stored
row's key is that row itself. -/
theorem head_filter_key {α : Type} (key : α → String) (l : List α) (x : α)
    (hnd : (l.map key).Nodup) (hx : x ∈ l) :
    (l.filter (fun y => key y == key x)).head? = some x := by
  induction l with
  | nil => cases hx
  | cons a as ih =>
    simp only [List.map_cons, List.nodup_cons] at hnd
    rcases List.mem_cons.mp hx with rfl | hmem
    · simp [List.filter_cons]
    · have hne : (key a == key x) = false := by
        apply beq_eq_false_iff_ne.mpr
        intro hkey
        exact hnd.1 (hkey ▸ List.mem_map_of_mem key hmem)
      simp only [List.filter_cons, hne, cond_false]
      exact ih hnd.2 hmem

/-- After deleting a cookie by name, a lookup of that name finds nothing. -/
theorem cookiesGet_cookiesDelete (cs : Cookies) (name : String) :
    cookiesGet (cookiesDelete cs name) name = none := by
  induction cs with
  | nil => rfl
  | cons c cs ih =>
    by_cases h : c.1 = name
    · simp only [cookiesDelete, List.filter_cons, h]
      simpa [cookiesDelete] using ih
    · have h1 : (c.1 != name) = true := by simpa using h
      have h2 : (c.1 == name) = false := by simpa using h
      simp only [cookiesDelete, List.filter_cons, h1, cond_true]
      simp only [cookiesGet, List.find?, h2]
      exact ih

/-- With pairwise-distinct quiz ids, looking up a stored quiz's id
returns that quiz. -/
theorem selectQuizById_mem (s : Store) (q : Quiz)
    (hnd : (s.quizes.map Quiz.id).Nodup) (hq : q ∈ s.quizes) :
    selectQuizById s q.id = some q :=
  head_filter_key Quiz.id s.quizes q hnd hq

/-- With pairwise-distinct entry ids, looking up a stored entry's id
returns that entry. -/
theorem selectEntryById_mem (s : Store) (e : Entry)
    (hnd : (s.entries.map Entry.id).Nodup) (he : e ∈ s.entries) :
    selectEntryById s e.id = some e :=
  head_filter_key Entry.id s.entries e hnd he

/-- The `quizStart` run leaves the cookie jar unchanged. -/
theorem runQuizStartProcedure_cookies {α : Type} (cs : Cookies) (ctx : Ctx)
    (handler : Ctx → α) : (runQuizStartProcedure cs ctx handler).cookies = cs := by
  cases hc : cookiesGet cs "quizID" with
  | none => simp [runQuizStartProcedure, quizStartStep, hc]
  | some v =>
    cases hq : selectQuizById ctx.db v with
    | none => simp [runQuizStartProcedure, quizStartStep, hc, hq]
    | some quiz => simp [runQuizStartProcedure, quizStartStep, runHandler, hc, hq]

/-- The `quizStart` run leaves the store unchanged. -/
theorem runQuizStartProcedure_store {α : Type} (cs : Cookies) (ctx : Ctx)
    (handler : Ctx → α) : (runQuizStartProcedure cs ctx handler).store = ctx.db := by
  cases hc : cookiesGet cs "quizID" with
  | none => simp [runQuizStartProcedure, quizStartStep, hc]
  | some v =>
    cases hq : selectQuizById ctx.db v with
    | none => simp [runQuizStartProcedure, quizStartStep, hc, hq]
    | some quiz => simp [runQuizStartProcedure, quizStartStep, runHandler, hc, hq]

/-- The `quiz` run leaves the cookie jar unchanged. -/
theorem runQuizProcedure_cookies {α : Type} (cs : Cookies) (ctx : Ctx)
    (handler : Ctx → α) : (runQuizProcedure cs ctx handler).cookies = cs := by
  cases hc : cookiesGet cs "quizID" with
  | none => simp [runQuizProcedure, quizStartStep, hc]
  | some v =>
    cases hq : selectQuizById ctx.db v with
    | none => simp [runQuizProcedure, quizStartStep, hc, hq]
    | some quiz =>
      cases he : cookiesGet cs "entryID" with
      | none => simp [runQuizProcedure, quizStartStep, entryStep, hc, hq, he]
      | some w =>
        cases hee : selectEntryById ctx.db w with
        | none =>
          simp [runQuizProcedure, quizStartStep, entryStep, hc, hq, he, hee]
        | some entry =>
          simp [runQuizProcedure, quizStartStep, entryStep, runHandler,
            hc, hq, he, hee]

/-- The `quiz` run leaves the store unchanged. -/
theorem runQuizProcedure_store {α : Type} (cs : Cookies) (ctx : Ctx)
    (handler : Ctx → α) : (runQuizProcedure cs ctx handler).store = ctx.db := by
  cases hc : cookiesGet cs "quizID" with
  | none => simp [runQuizProcedure, quizStartStep, hc]
  | some v =>
    cases hq : selectQuizById ctx.db v with
    | none => simp [runQuizProcedure, quizStartStep, hc, hq]
    | some quiz =>
      cases he : cookiesGet cs "entryID" with
      | none => simp [runQuizProcedure, quizStartStep, entryStep, hc, hq, he]
      | some w =>
        cases hee : selectEntryById ctx.db w with
        | none =>
          simp [runQuizProcedure, quizStartStep, entryStep, hc, hq, he, hee]
        | some entry =>
          simp [runQuizProcedure, quizStartStep, entryStep, runHandler,
            hc, hq, he, hee]

/-! ### Claim theorems -/

/-- C9: for every inbound request, the context builder returns a context
containing exactly the given request handle, the shared database
reference, and unset (absent) quiz and entry fields; as a total pure
function it performs no other effect and has no failure mode. -/
theorem createTRPCContext_builds_bare_context (db : Store) (req : NextRequest) :
    createTRPCContext db req =
      { req := req, db := db, entry := none, quiz := none } := rfl

/-- C4: in `quizStart`, an absent quiz cookie fails with BAD_REQUEST
"Quiz missing"; a present cookie with no matching stored Quiz fails with
BAD_REQUEST "Quiz incorrect"; a matching Quiz is attached to the context
and the chain continues; and every failure of the step is one of these
two conditions. -/
theorem quizStartProcedure_case_analysis {α : Type} (cs : Cookies) (ctx : Ctx)
    (handler : Ctx → α) :
    (cookiesGet cs "quizID" = none →
      (runQuizStartProcedure cs ctx handler).result =
        .error ⟨.BAD_REQUEST, "Quiz missing"⟩) ∧
    (∀ v, cookiesGet cs "quizID" = some v → selectQuizById ctx.db v = none →
      (runQuizStartProcedure cs ctx handler).result =
        .error ⟨.BAD_REQUEST, "Quiz incorrect"⟩) ∧
    (∀ v quiz, cookiesGet cs "quizID" = some v →
      selectQuizById ctx.db v = some quiz →
      (runQuizStartProcedure cs ctx handler).result =
        .ok (handler { ctx with quiz := some quiz })) ∧
    (∀ e, (runQuizStartProcedure cs ctx handler).result = .error e →
      cookiesGet cs "quizID" = none ∨
        ∃ v, cookiesGet cs "quizID" = some v ∧ selectQuizById ctx.db v = none) := by
  refine ⟨?_, ?_, ?_, ?_⟩
  · intro hc
    simp [runQuizStartProcedure, quizStartStep, hc]
  · intro v hc hq
    simp [runQuizStartProcedure, quizStartStep, hc, hq]
  · intro v quiz hc hq
    simp [runQuizStartProcedure, quizStartStep, runHandler, hc, hq]
  · intro e he
    cases hc : cookiesGet cs "quizID" with
    | none => exact Or.inl rfl
    | some v =>
      cases hq : selectQuizById ctx.db v with
      | none => exact Or.inr ⟨v, rfl, hq⟩
      | some quiz =>
        simp [runQuizStartProcedure, quizStartStep, runHandler, hc, hq] at he

/-- Closed instance of C4 (quizStartProcedure_case_analysis) at concrete
cookie jars and stores, one per case. -/
theorem quizStartProcedure_case_analysis_witness :
    (runQuizStartProcedure (α := Ctx) [] ⟨⟨0⟩, ⟨[], []⟩, none, none⟩
        (fun c => c)).result = .error ⟨.BAD_REQUEST, "Quiz missing"⟩ ∧
    (runQuizStartProcedure (α := Ctx) [("quizID", "Q2")]
        ⟨⟨0⟩, ⟨[⟨"Q1", "Algebra"⟩], []⟩, none, none⟩
        (fun c => c)).result = .error ⟨.BAD_REQUEST, "Quiz incorrect"⟩ ∧
    (runQuizStartProcedure (α := Ctx) [("quizID", "Q1")]
        ⟨⟨0⟩, ⟨[⟨"Q1", "Algebra"⟩], []⟩, none, none⟩
        (fun c => c)).result =
      .ok ⟨⟨0⟩, ⟨[⟨"Q1", "Algebra"⟩], []⟩, none, some ⟨"Q1", "Algebra"⟩⟩ := by
  refine ⟨?_, ?_, ?_⟩
  · exact (quizStartProcedure_case_analysis [] ⟨⟨0⟩, ⟨[], []⟩, none, none⟩
      (fun c => c)).1 rfl
  · exact (quizStartProcedure_case_analysis [("quizID", "Q2")]
      ⟨⟨0⟩, ⟨[⟨"Q1", "Algebra"⟩], []⟩, none, none⟩
      (fun c => c)).2.1 "Q2" rfl rfl
  · exact (quizStartProcedure_case_analysis [("quizID", "Q1")]
      ⟨⟨0⟩, ⟨[⟨"Q1", "Algebra"⟩], []⟩, none, none⟩
      (fun c => c)).2.2.1 "Q1" ⟨"Q1", "Algebra"⟩ rfl rfl

/-- C8: the resolve-quiz and resolve-entry steps never write to the store
or to the cookie jar, and rerunning `quizStart` with the cookie jar and
store left by a first run reproduces that run exactly — in particular a
repeated successful call resolves the same Quiz. -/
theorem quizStart_no_mutation_and_idempotent {α : Type} (cs : Cookies)
    (ctx : Ctx) (handler : Ctx → α) :
    (runQuizStartProcedure cs ctx handler).cookies = cs ∧
    (runQuizStartProcedure cs ctx handler).store = ctx.db ∧
    (runQuizProcedure cs ctx handler).cookies = cs ∧
    (runQuizProcedure cs ctx handler).store = ctx.db ∧
    runQuizStartProcedure (runQuizStartProcedure cs ctx handler).cookies
        { ctx with db := (runQuizStartProcedure cs ctx handler).store }
        handler =
      runQuizStartProcedure cs ctx handler := by
  refine ⟨runQuizStartProcedure_cookies cs ctx handler,
    runQuizStartProcedure_store cs ctx handler,
    runQuizProcedure_cookies cs ctx handler,
    runQuizProcedure_store cs ctx handler, ?_⟩
  rw [runQuizStartProcedure_cookies cs ctx handler,
    runQuizStartProcedure_store cs ctx handler]

/-- C1: when the quiz cookie's value is the id of a stored Quiz row and
the entry cookie's value is the id of a stored Entry row (ids being
unique keys), the `quiz` chain runs the terminal handler on a context
whose quiz field is exactly the stored Quiz row and whose entry field is
exactly the stored Entry row. -/
theorem quizProcedure_success_populates_context {α : Type} (cs : Cookies)
    (ctx : Ctx) (handler : Ctx → α) (quiz : Quiz) (entry : Entry)
    (hqnd : (ctx.db.quizes.map Quiz.id).Nodup)
    (hend : (ctx.db.entries.map Entry.id).Nodup)
    (hq : quiz ∈ ctx.db.quizes)
    (he : entry ∈ ctx.db.entries)
    (hqc : cookiesGet cs "quizID" = some quiz.id)
    (hec : cookiesGet cs "entryID" = some entry.id) :
    (runQuizProcedure cs ctx handler).result =
      .ok (handler { ctx with quiz := some quiz, entry := some entry }) ∧
    Event.handlerRun ∈ (runQuizProcedure cs ctx handler).trace := by
  have hq' := selectQuizById_mem ctx.db quiz hqnd hq
  have he' := selectEntryById_mem ctx.db entry hend he
  constructor <;>
    simp [runQuizProcedure, quizStartStep, entryStep, runHandler,
      hqc, hq', hec, he']

/-- Closed instance of C1 (quizProcedure_success_populates_context):
store {Q1 ↦ Algebra}, entry E1 of quiz Q1, both cookies set. -/
theorem quizProcedure_success_populates_context_witness :
    (runQuizProcedure (α := Ctx) [("quizID", "Q1"), ("entryID", "E1")]
        ⟨⟨0⟩, ⟨[⟨"Q1", "Algebra"⟩], [⟨"E1", "Bob", "Q1", "Smith", "1a", 0⟩]⟩,
          none, none⟩ (fun c => c)).result =
      .ok ⟨⟨0⟩, ⟨[⟨"Q1", "Algebra"⟩], [⟨"E1", "Bob", "Q1", "Smith", "1a", 0⟩]⟩,
        some ⟨"E1", "Bob", "Q1", "Smith", "1a", 0⟩, some ⟨"Q1", "Algebra"⟩⟩ ∧
    Event.handlerRun ∈
      (runQuizProcedure (α := Ctx) [("quizID", "Q1"), ("entryID", "E1")]
        ⟨⟨0⟩, ⟨[⟨"Q1", "Algebra"⟩], [⟨"E1", "Bob", "Q1", "Smith", "1a", 0⟩]⟩,
          none, none⟩ (fun c => c)).trace :=
  quizProcedure_success_populates_context
    [("quizID", "Q1"), ("entryID", "E1")]
    ⟨⟨0⟩, ⟨[⟨"Q1", "Algebra"⟩], [⟨"E1", "Bob", "Q1", "Smith", "1a", 0⟩]⟩,
      none, none⟩ (fun c => c)
    ⟨"Q1", "Algebra"⟩ ⟨"E1", "Bob", "Q1", "Smith", "1a", 0⟩
    (by simp) (by simp) (by simp) (by simp) rfl rfl

/-- C2: in `private`, a present credential that fails verification causes
the credential cookie to be deleted and the call to fail UNAUTHORIZED
"Authorization incorrect"; a credential that passes verification lets the
chain continue with the context unchanged, with the cookie jar untouched
and no deletion performed. -/
theorem privateProcedure_verification {α : Type} (verify : String → Bool)
    (cs : Cookies) (ctx : Ctx) (handler : Ctx → α) (v : String)
    (hc : cookiesGet cs "Authorization" = some v) :
    (verify v = false →
      (runPrivateProcedure verify cs ctx handler).result =
        .error ⟨.UNAUTHORIZED, "Authorization incorrect"⟩ ∧
      cookiesGet (runPrivateProcedure verify cs ctx handler).cookies
        "Authorization" = none) ∧
    (verify v = true →
      (runPrivateProcedure verify cs ctx handler).result = .ok (handler ctx) ∧
      (runPrivateProcedure verify cs ctx handler).cookies = cs ∧
      ∀ n, Event.cookieDelete n ∉
        (runPrivateProcedure verify cs ctx handler).trace) := by
  constructor
  · intro hv
    constructor
    · simp [runPrivateProcedure, hc, hv]
    · simp [runPrivateProcedure, hc, hv, cookiesGet_cookiesDelete]
  · intro hv
    refine ⟨?_, ?_, ?_⟩ <;> simp [runPrivateProcedure, runHandler, hc, hv]

/-- Closed instance of C2 (privateProcedure_verification): a rejected
token "tok123" is deleted and the call fails; an accepted token leaves
the jar untouched and the handler runs. -/
theorem privateProcedure_verification_witness :
    ((runPrivateProcedure (α := Ctx) (fun _ => false)
        [("Authorization", "tok123")] ⟨⟨0⟩, ⟨[], []⟩, none, none⟩
        (fun c => c)).result =
      .error ⟨.UNAUTHORIZED, "Authorization incorrect"⟩ ∧
    cookiesGet (runPrivateProcedure (α := Ctx) (fun _ => false)
        [("Authorization", "tok123")] ⟨⟨0⟩, ⟨[], []⟩, none, none⟩
        (fun c => c)).cookies "Authorization" = none) ∧
    ((runPrivateProcedure (α := Ctx) (fun _ => true)
        [("Authorization", "tok123")] ⟨⟨0⟩, ⟨[], []⟩, none, none⟩
        (fun c => c)).result = .ok ⟨⟨0⟩, ⟨[], []⟩, none, none⟩ ∧
    (runPrivateProcedure (α := Ctx) (fun _ => true)
        [("Authorization", "tok123")] ⟨⟨0⟩, ⟨[], []⟩, none, none⟩
        (fun c => c)).cookies = [("Authorization", "tok123")]) :=
  ⟨(privateProcedure_verification (fun _ => false)
      [("Authorization", "tok123")] ⟨⟨0⟩, ⟨[], []⟩, none, none⟩
      (fun c => c) "tok123" rfl).1 rfl,
   ((privateProcedure_verification (fun _ => true)
      [("Authorization", "tok123")] ⟨⟨0⟩, ⟨[], []⟩, none, none⟩
      (fun c => c) "tok123" rfl).2 rfl).1,
   ((privateProcedure_verification (fun _ => true)
      [("Authorization", "tok123")] ⟨⟨0⟩, ⟨[], []⟩, none, none⟩
      (fun c => c) "tok123" rfl).2 rfl).2.1⟩

/-- C3: in `quiz`, with the quiz resolved, an entry cookie whose value
matches no stored Entry fails with BAD_REQUEST "Quiz incorrect" (the
quiz-not-found message reused verbatim), and an absent entry cookie fails
with BAD_REQUEST "Entry missing". -/
theorem quizProcedure_entry_failure_messages {α : Type} (cs : Cookies)
    (ctx : Ctx) (handler : Ctx → α) (qv : String) (quiz : Quiz)
    (hqc : cookiesGet cs "quizID" = some qv)
    (hq : selectQuizById ctx.db qv = some quiz) :
    (∀ ev, cookiesGet cs "entryID" = some ev →
      selectEntryById ctx.db ev = none →
      (runQuizProcedure cs ctx handler).result =
        .error ⟨.BAD_REQUEST, "Quiz incorrect"⟩) ∧
    (cookiesGet cs "entryID" = none →
      (runQuizProcedure cs ctx handler).result =
        .error ⟨.BAD_REQUEST, "Entry missing"⟩) := by
  constructor
  · intro ev hec hee
    simp [runQuizProcedure, quizStartStep, entryStep, hqc, hq, hec, hee]
  · intro hec
    simp [runQuizProcedure, quizStartStep, entryStep, hqc, hq, hec]

/-- Closed instance of C3 (quizProcedure_entry_failure_messages): quiz
cookie "Q1" resolves, entry cookie "E9" matches no entry in one jar and
is absent in the other. -/
theorem quizProcedure_entry_failure_messages_witness :
    (runQuizProcedure (α := Ctx) [("quizID", "Q1"), ("entryID", "E9")]
        ⟨⟨0⟩, ⟨[⟨"Q1", "Algebra"⟩], []⟩, none, none⟩ (fun c => c)).result =
      .error ⟨.BAD_REQUEST, "Quiz incorrect"⟩ ∧
    (runQuizProcedure (α := Ctx) [("quizID", "Q1")]
        ⟨⟨0⟩, ⟨[⟨"Q1", "Algebra"⟩], []⟩, none, none⟩ (fun c => c)).result =
      .error ⟨.BAD_REQUEST, "Entry missing"⟩ :=
  ⟨(quizProcedure_entry_failure_messages [("quizID", "Q1"), ("entryID", "E9")]
      ⟨⟨0⟩, ⟨[⟨"Q1", "Algebra"⟩], []⟩, none, none⟩ (fun c => c)
      "Q1" ⟨"Q1", "Algebra"⟩ rfl rfl).1 "E9" rfl rfl,
   (quizProcedure_entry_failure_messages [("quizID", "Q1")]
      ⟨⟨0⟩, ⟨[⟨"Q1", "Algebra"⟩], []⟩, none, none⟩ (fun c => c)
      "Q1" ⟨"Q1", "Algebra"⟩ rfl rfl).2 rfl⟩

/-- C5: in `private`, an absent credential cookie fails UNAUTHORIZED
"Authorization missing"; the external verifier is never invoked and no
cookie is deleted (the jar is unchanged and the trace holds no verifier
call and no deletion). -/
theorem privateProcedure_missing_credential {α : Type} (verify : String → Bool)
    (cs : Cookies) (ctx : Ctx) (handler : Ctx → α)
    (hc : cookiesGet cs "Authorization" = none) :
    (runPrivateProcedure verify cs ctx handler).result =
      .error ⟨.UNAUTHORIZED, "Authorization missing"⟩ ∧
    (runPrivateProcedure verify cs ctx handler).cookies = cs ∧
    (∀ t b, Event.verifyCall t b ∉
      (runPrivateProcedure verify cs ctx handler).trace) ∧
    (∀ n, Event.cookieDelete n ∉
      (runPrivateProcedure verify cs ctx handler).trace) := by
  refine ⟨?_, ?_, ?_, ?_⟩ <;> simp [runPrivateProcedure, hc]

/-- Closed instance of C5 (privateProcedure_missing_credential): empty
cookie jar with an always-true verifier. -/
theorem privateProcedure_missing_credential_witness :
    (runPrivateProcedure (α := Ctx) (fun _ => true) []
        ⟨⟨0⟩, ⟨[], []⟩, none, none⟩ (fun c => c)).result =
      .error ⟨.UNAUTHORIZED, "Authorization missing"⟩ ∧
    (runPrivateProcedure (α := Ctx) (fun _ => true) []
        ⟨⟨0⟩, ⟨[], []⟩, none, none⟩ (fun c => c)).cookies = [] ∧
    Event.verifyCall "tok123" true ∉
      (runPrivateProcedure (α := Ctx) (fun _ => true) []
        ⟨⟨0⟩, ⟨[], []⟩, none, none⟩ (fun c => c)).trace ∧
    Event.cookieDelete "Authorization" ∉
      (runPrivateProcedure (α := Ctx) (fun _ => true) []
        ⟨⟨0⟩, ⟨[], []⟩, none, none⟩ (fun c => c)).trace :=
  ⟨(privateProcedure_missing_credential (fun _ => true) []
      ⟨⟨0⟩, ⟨[], []⟩, none, none⟩ (fun c => c) rfl).1,
   (privateProcedure_missing_credential (fun _ => true) []
      ⟨⟨0⟩, ⟨[], []⟩, none, none⟩ (fun c => c) rfl).2.1,
   (privateProcedure_missing_credential (fun _ => true) []
      ⟨⟨0⟩, ⟨[], []⟩, none, none⟩ (fun c => c) rfl).2.2.1 "tok123" true,
   (privateProcedure_missing_credential (fun _ => true) []
      ⟨⟨0⟩, ⟨[], []⟩, none, none⟩ (fun c => c) rfl).2.2.2 "Authorization"⟩

/-- C6: the `quiz` chain fetches the Entry by the entry cookie's id alone
and never checks that its quizID matches the resolved Quiz: there is a
store with a Quiz q and an Entry whose quizID differs from q.id for which
the handler still runs, with context.entry.quizID ≠ context.quiz.id. -/
theorem quizProcedure_skips_quizID_consistency :
    ∃ (cs : Cookies) (ctx : Ctx) (quiz : Quiz) (entry : Entry),
      quiz ∈ ctx.db.quizes ∧ entry ∈ ctx.db.entries ∧
      cookiesGet cs "quizID" = some quiz.id ∧
      cookiesGet cs "entryID" = some entry.id ∧
      entry.quizID ≠ quiz.id ∧
      (runQuizProcedure cs ctx (fun c => c)).result =
        .ok { ctx with quiz := some quiz, entry := some entry } := by
  refine ⟨[("quizID", "Q1"), ("entryID", "E1")],
    ⟨⟨0⟩, ⟨[⟨"Q1", "Algebra"⟩], [⟨"E1", "Bob", "Q7", "Smith", "1a", 0⟩]⟩,
      none, none⟩,
    ⟨"Q1", "Algebra"⟩, ⟨"E1", "Bob", "Q7", "Smith", "1a", 0⟩,
    by simp, by simp, rfl, rfl, by simp, rfl⟩

/-- C7: when the quiz-resolution step of the `quiz` chain fails (quiz
cookie absent or quiz not found), the call's outcome is exactly the
`quizStart` outcome (the failure surfaced unchanged), the entry cookie is
never read, and no Entry lookup is issued. -/
theorem quizProcedure_failure_short_circuits {α : Type} (cs : Cookies)
    (ctx : Ctx) (handler : Ctx → α)
    (hfail : cookiesGet cs "quizID" = none ∨
      ∃ v, cookiesGet cs "quizID" = some v ∧ selectQuizById ctx.db v = none) :
    (runQuizProcedure cs ctx handler).result =
      (runQuizStartProcedure cs ctx handler).result ∧
    (∃ e, (runQuizProcedure cs ctx handler).result = Except.error e) ∧
    (∀ ov, Event.cookieRead "entryID" ov ∉
      (runQuizProcedure cs ctx handler).trace) ∧
    (∀ i, Event.dbSelectEntry i ∉ (runQuizProcedure cs ctx handler).trace) := by
  rcases hfail with hc | ⟨v, hc, hq⟩
  · refine ⟨?_, ?_, ?_, ?_⟩ <;>
      simp [runQuizProcedure, runQuizStartProcedure, quizStartStep, hc]
  · refine ⟨?_, ?_, ?_, ?_⟩ <;>
      simp [runQuizProcedure, runQuizStartProcedure, quizStartStep, hc, hq]

/-- Closed instance of C7 (quizProcedure_failure_short_circuits): quiz
cookie "Q9" matches no stored quiz while an entry cookie is present. -/
theorem quizProcedure_failure_short_circuits_witness :
    (runQuizProcedure (α := Ctx) [("quizID", "Q9"), ("entryID", "E1")]
        ⟨⟨0⟩, ⟨[⟨"Q1", "Algebra"⟩], [⟨"E1", "Bob", "Q1", "Smith", "1a", 0⟩]⟩,
          none, none⟩ (fun c => c)).result =
      (runQuizStartProcedure (α := Ctx) [("quizID", "Q9"), ("entryID", "E1")]
        ⟨⟨0⟩, ⟨[⟨"Q1", "Algebra"⟩], [⟨"E1", "Bob", "Q1", "Smith", "1a", 0⟩]⟩,
          none, none⟩ (fun c => c)).result ∧
    Event.cookieRead "entryID" (some "E1") ∉
      (runQuizProcedure (α := Ctx) [("quizID", "Q9"), ("entryID", "E1")]
        ⟨⟨0⟩, ⟨[⟨"Q1", "Algebra"⟩], [⟨"E1", "Bob", "Q1", "Smith", "1a", 0⟩]⟩,
          none, none⟩ (fun c => c)).trace ∧
    Event.dbSelectEntry "E1" ∉
      (runQuizProcedure (α := Ctx) [("quizID", "Q9"), ("entryID", "E1")]
        ⟨⟨0⟩, ⟨[⟨"Q1", "Algebra"⟩], [⟨"E1", "Bob", "Q1", "Smith", "1a", 0⟩]⟩,
          none, none⟩ (fun c => c)).trace :=
  ⟨(quizProcedure_failure_short_circuits [("quizID", "Q9"), ("entryID", "E1")]
      ⟨⟨0⟩, ⟨[⟨"Q1", "Algebra"⟩], [⟨"E1", "Bob", "Q1", "Smith", "1a", 0⟩]⟩,
        none, none⟩ (fun c => c) (Or.inr ⟨"Q9", rfl, rfl⟩)).1,
   (quizProcedure_failure_short_circuits [("quizID", "Q9"), ("entryID", "E1")]
      ⟨⟨0⟩, ⟨[⟨"Q1", "Algebra"⟩], [⟨"E1", "Bob", "Q1", "Smith", "1a", 0⟩]⟩,
        none, none⟩ (fun c => c) (Or.inr ⟨"Q9", rfl, rfl⟩)).2.2.1 (some "E1"),
   (quizProcedure_failure_short_circuits [("quizID", "Q9"), ("entryID", "E1")]
      ⟨⟨0⟩, ⟨[⟨"Q1", "Algebra"⟩], [⟨"E1", "Bob", "Q1", "Smith", "1a", 0⟩]⟩,
        none, none⟩ (fun c => c) (Or.inr ⟨"Q9", rfl, rfl⟩)).2.2.2 "E1"⟩

/-- C10: a cookie present with the empty-string value is treated as
present: `quizStart` performs the store lookup for id "" and, when no row
has that id, fails with "Quiz incorrect" rather than "Quiz missing";
likewise the entry step of `quiz` performs the lookup and fails with the
lookup-failure message "Quiz incorrect" rather than "Entry missing". -/
theorem emptyString_cookie_is_present {α : Type} (cs : Cookies) (ctx : Ctx)
    (handler : Ctx → α) :
    (cookiesGet cs "quizID" = some "" → selectQuizById ctx.db "" = none →
      (runQuizStartProcedure cs ctx handler).result =
        .error ⟨.BAD_REQUEST, "Quiz incorrect"⟩ ∧
      Event.dbSelectQuiz "" ∈ (runQuizStartProcedure cs ctx handler).trace) ∧
    (∀ v quiz, cookiesGet cs "quizID" = some v →
      selectQuizById ctx.db v = some quiz →
      cookiesGet cs "entryID" = some "" → selectEntryById ctx.db "" = none →
      (runQuizProcedure cs ctx handler).result =
        .error ⟨.BAD_REQUEST, "Quiz incorrect"⟩ ∧
      Event.dbSelectEntry "" ∈ (runQuizProcedure cs ctx handler).trace) := by
  constructor
  · intro hc hq
    constructor <;> simp [runQuizStartProcedure, quizStartStep, hc, hq]
  · intro v quiz hc hq hec hee
    constructor <;>
      simp [runQuizProcedure, quizStartStep, entryStep, hc, hq, hec, hee]

/-- Closed instance of C10 (emptyString_cookie_is_present): a quiz cookie
with value "" on an empty store, and an entry cookie with value "" after
a resolved quiz. -/
theorem emptyString_cookie_is_present_witness :
    ((runQuizStartProcedure (α := Ctx) [("quizID", "")]
        ⟨⟨0⟩, ⟨[⟨"Q1", "Algebra"⟩], []⟩, none, none⟩ (fun c => c)).result =
      .error ⟨.BAD_REQUEST, "Quiz incorrect"⟩ ∧
    Event.dbSelectQuiz "" ∈
      (runQuizStartProcedure (α := Ctx) [("quizID", "")]
        ⟨⟨0⟩, ⟨[⟨"Q1", "Algebra"⟩], []⟩, none, none⟩ (fun c => c)).trace) ∧
    ((runQuizProcedure (α := Ctx) [("quizID", "Q1"), ("entryID", "")]
        ⟨⟨0⟩, ⟨[⟨"Q1", "Algebra"⟩], []⟩, none, none⟩ (fun c => c)).result =
      .error ⟨.BAD_REQUEST, "Quiz incorrect"⟩ ∧
    Event.dbSelectEntry "" ∈
      (runQuizProcedure (α := Ctx) [("quizID", "Q1"), ("entryID", "")]
        ⟨⟨0⟩, ⟨[⟨"Q1", "Algebra"⟩], []⟩, none, none⟩ (fun c => c)).trace) :=
  ⟨(emptyString_cookie_is_present [("quizID", "")]
      ⟨⟨0⟩, ⟨[⟨"Q1", "Algebra"⟩], []⟩, none, none⟩ (fun c => c)).1 rfl rfl,
   (emptyString_cookie_is_present [("quizID", "Q1"), ("entryID", "")]
      ⟨⟨0⟩, ⟨[⟨"Q1", "Algebra"⟩], []⟩, none, none⟩ (fun c => c)).2
      "Q1" ⟨"Q1", "Algebra"⟩ rfl rfl rfl rfl⟩

end Quizi
